import Mathlib

/-!
Verification of the profitability / financial-reconciliation engine of the
telegram-construction-bot repository.

Python `Decimal` values are modelled as exact rationals (`ℚ`): all additive
operations of the engine are exact in `Decimal` for currency-scale operands,
and the one division (profitability) is modelled exactly.

Source files embedded here:
  * src/database/models.py        (enums and entity fields read by the engine)
  * src/bot/services/calculations.py   (calculate_profit_data)
  * src/bot/handlers/objects.py   (_send_expenses_overview grouping,
                                   compensate_expense handler)
  * src/database/crud.py          (update_compensation_status,
                                   get_company_expenses_for_period)
  * src/bot/services/report_generator.py (generate_period_report aggregates)
-/

namespace ConstructionBot

/-- models.py UserRole. -/
inductive UserRole
  | admin
  | foreman
deriving DecidableEq, Repr

/-- models.py ExpenseType: supplies / transport / overhead. -/
inductive ExpenseType
  | supplies
  | transport
  | overhead
deriving DecidableEq, Repr

/-- models.py PaymentSource: company / personal. -/
inductive PaymentSource
  | company
  | personal
deriving DecidableEq, Repr

/-- models.py CompensationStatus: pending / compensated. -/
inductive CompensationStatus
  | pending
  | compensated
deriving DecidableEq, Repr

/-- models.py Expense: the columns read by the engine (description, date,
photo_url, added_by, created_at are never read by the modelled operations). -/
structure Expense where
  id : Int
  type : ExpenseType
  amount : ℚ
  payment_source : PaymentSource
  compensation_status : Option CompensationStatus
deriving DecidableEq, Repr

/-- models.py ConstructionObject: the monetary columns read by
calculate_profit_data, plus the loaded expenses relationship. -/
structure ConstructionObject where
  prepayment : ℚ
  final_payment : ℚ
  estimate_s3 : ℚ
  estimate_works : ℚ
  estimate_supplies : ℚ
  estimate_overhead : ℚ
  estimate_transport : ℚ
  actual_s3_discount : ℚ
  expenses : List Expense

/-- The dict returned by calculations.py calculate_profit_data. -/
structure ProfitData where
  total_income : ℚ
  prepayment : ℚ
  final_payment : ℚ
  estimate_s3 : ℚ
  actual_s3_discount : ℚ
  s3_difference : ℚ
  estimate_works : ℚ
  fzp_master : ℚ
  fzp_foreman : ℚ
  fzp_total : ℚ
  work_profit : ℚ
  estimate_supplies : ℚ
  supplies_fact : ℚ
  supplies_difference : ℚ
  estimate_overhead : ℚ
  overhead_fact : ℚ
  overhead_difference : ℚ
  estimate_transport : ℚ
  transport_fact : ℚ
  transport_difference : ℚ
  total_expenses : ℚ
  total_profit : ℚ
  profitability : ℚ

/-- calculations.py calculate_profit_data.  The python source compares
`expense.type.value == "supplies"` etc.; the enum-to-string map is a
bijection, modelled as equality on `ExpenseType`. -/
def calculate_profit_data (obj : ConstructionObject) : ProfitData :=
  let total_income := obj.prepayment + obj.final_payment
  let s3_difference := obj.estimate_s3 - obj.actual_s3_discount
  let fzp_master := obj.estimate_works * 0.45
  let fzp_foreman := obj.estimate_works * 0.10
  let fzp_total := fzp_master + fzp_foreman
  let work_profit := obj.estimate_works - fzp_total
  let supplies_fact :=
    ((obj.expenses.filter (fun e => e.type = ExpenseType.supplies)).map
      (fun e => e.amount)).sum
  let transport_fact :=
    ((obj.expenses.filter (fun e => e.type = ExpenseType.transport)).map
      (fun e => e.amount)).sum
  let overhead_fact :=
    ((obj.expenses.filter (fun e => e.type = ExpenseType.overhead)).map
      (fun e => e.amount)).sum
  let supplies_difference := obj.estimate_supplies - supplies_fact
  let overhead_difference := obj.estimate_overhead - overhead_fact
  let transport_difference := obj.estimate_transport - transport_fact
  let total_profit :=
    s3_difference + work_profit + supplies_difference +
      overhead_difference + transport_difference
  let total_expenses :=
    obj.actual_s3_discount + fzp_total + supplies_fact +
      overhead_fact + transport_fact
  let profitability :=
    if total_income > 0 then total_profit / total_income * 100 else 0
  { total_income := total_income
    prepayment := obj.prepayment
    final_payment := obj.final_payment
    estimate_s3 := obj.estimate_s3
    actual_s3_discount := obj.actual_s3_discount
    s3_difference := s3_difference
    estimate_works := obj.estimate_works
    fzp_master := fzp_master
    fzp_foreman := fzp_foreman
    fzp_total := fzp_total
    work_profit := work_profit
    estimate_supplies := obj.estimate_supplies
    supplies_fact := supplies_fact
    supplies_difference := supplies_difference
    estimate_overhead := obj.estimate_overhead
    overhead_fact := overhead_fact
    overhead_difference := overhead_difference
    estimate_transport := obj.estimate_transport
    transport_fact := transport_fact
    transport_difference := transport_difference
    total_expenses := total_expenses
    total_profit := total_profit
    profitability := profitability }

/-- C1: for every construction object with its expense list, the calculator
satisfies total_profit = s3_difference + work_profit + supplies_difference +
overhead_difference + transport_difference exactly, where s3_difference =
estimate_s3 - actual_s3_discount, each fact field is the sum of the amounts
of the expenses of the corresponding type, and each difference is the
estimate minus the fact, with no rounding drift in exact arithmetic. -/
theorem c1_total_profit_formula (obj : ConstructionObject) :
    (calculate_profit_data obj).total_profit =
        (calculate_profit_data obj).s3_difference +
        (calculate_profit_data obj).work_profit +
        (calculate_profit_data obj).supplies_difference +
        (calculate_profit_data obj).overhead_difference +
        (calculate_profit_data obj).transport_difference ∧
    (calculate_profit_data obj).s3_difference =
        obj.estimate_s3 - obj.actual_s3_discount ∧
    (calculate_profit_data obj).supplies_fact =
        ((obj.expenses.filter (fun e => e.type = ExpenseType.supplies)).map
          (fun e => e.amount)).sum ∧
    (calculate_profit_data obj).transport_fact =
        ((obj.expenses.filter (fun e => e.type = ExpenseType.transport)).map
          (fun e => e.amount)).sum ∧
    (calculate_profit_data obj).overhead_fact =
        ((obj.expenses.filter (fun e => e.type = ExpenseType.overhead)).map
          (fun e => e.amount)).sum ∧
    (calculate_profit_data obj).supplies_difference =
        obj.estimate_supplies - (calculate_profit_data obj).supplies_fact ∧
    (calculate_profit_data obj).overhead_difference =
        obj.estimate_overhead - (calculate_profit_data obj).overhead_fact ∧
    (calculate_profit_data obj).transport_difference =
        obj.estimate_transport - (calculate_profit_data obj).transport_fact :=
  ⟨rfl, rfl, rfl, rfl, rfl, rfl, rfl, rfl⟩

/-- C6: for every construction object, fzp_master + fzp_foreman + work_profit
= estimate_works exactly, with fzp_master = 45 percent and fzp_foreman = 10
percent of estimate_works and work_profit the remainder after the payroll
fund. -/
theorem c6_fzp_partition (obj : ConstructionObject) :
    (calculate_profit_data obj).fzp_master +
        (calculate_profit_data obj).fzp_foreman +
        (calculate_profit_data obj).work_profit = obj.estimate_works ∧
    (calculate_profit_data obj).fzp_master = obj.estimate_works * 0.45 ∧
    (calculate_profit_data obj).fzp_foreman = obj.estimate_works * 0.10 ∧
    (calculate_profit_data obj).work_profit =
        obj.estimate_works -
          ((calculate_profit_data obj).fzp_master +
            (calculate_profit_data obj).fzp_foreman) := by
  refine ⟨?_, rfl, rfl, rfl⟩
  show obj.estimate_works * 0.45 + obj.estimate_works * 0.10 +
      (obj.estimate_works -
        (obj.estimate_works * 0.45 + obj.estimate_works * 0.10)) =
      obj.estimate_works
  ring

/-- C7: for every construction object whose total income (prepayment plus
final payment) is zero, the calculator returns profitability 0 regardless of
the sign of total_profit (the guard makes the division total, so no
division-by-zero error can occur); for positive total income it returns
total_profit / total_income * 100. -/
theorem c7_profitability_guard (obj : ConstructionObject) :
    (obj.prepayment + obj.final_payment = 0 →
      (calculate_profit_data obj).profitability = 0) ∧
    (obj.prepayment + obj.final_payment > 0 →
      (calculate_profit_data obj).profitability =
        (calculate_profit_data obj).total_profit /
          (calculate_profit_data obj).total_income * 100) := by
  constructor
  · intro h
    show (if obj.prepayment + obj.final_payment > 0 then _ else (0 : ℚ)) = 0
    rw [if_neg]
    rw [h]
    exact lt_irrefl 0
  · intro h
    show (if obj.prepayment + obj.final_payment > 0 then _ else (0 : ℚ)) = _
    rw [if_pos h]
    rfl

/-- Concrete object with zero income and negative profit, used by witnesses. -/
def objZeroIncome : ConstructionObject :=
  { prepayment := 0, final_payment := 0, estimate_s3 := 0
    estimate_works := 0, estimate_supplies := 0, estimate_overhead := 0
    estimate_transport := 0, actual_s3_discount := 500, expenses := [] }

/-- Concrete object with positive income, used by witnesses. -/
def objPosIncome : ConstructionObject :=
  { prepayment := 1000, final_payment := 500, estimate_s3 := 0
    estimate_works := 0, estimate_supplies := 0, estimate_overhead := 0
    estimate_transport := 0, actual_s3_discount := 0, expenses := [] }

/-- C7 witness: a concrete object with zero income and negative profit gets
profitability 0, and one with positive income gets the ratio formula. -/
theorem c7_profitability_guard_witness :
    (calculate_profit_data objZeroIncome).profitability = 0 ∧
    (calculate_profit_data objPosIncome).profitability =
      (calculate_profit_data objPosIncome).total_profit /
        (calculate_profit_data objPosIncome).total_income * 100 :=
  ⟨(c7_profitability_guard objZeroIncome).1 (by norm_num [objZeroIncome]),
   (c7_profitability_guard objPosIncome).2 (by norm_num [objPosIncome])⟩

/-- C3 counterexample: the object of the spec scenario (estimate_works
100000, no expenses, actual_s3_discount = estimate_s3) has work_profit
45000, not the claimed 55000: the code retains 45 percent of the works
budget after paying out the 45 + 10 percent payroll fund. -/
theorem c3_counterexample :
    (calculate_profit_data
      { prepayment := 0, final_payment := 0, estimate_s3 := 300
        estimate_works := 100000, estimate_supplies := 7000
        estimate_overhead := 2000, estimate_transport := 1000
        actual_s3_discount := 300, expenses := [] }).work_profit ≠ 55000 ∧
    (calculate_profit_data
      { prepayment := 0, final_payment := 0, estimate_s3 := 300
        estimate_works := 100000, estimate_supplies := 7000
        estimate_overhead := 2000, estimate_transport := 1000
        actual_s3_discount := 300, expenses := [] }).work_profit = 45000 := by
  constructor
  · show (100000 : ℚ) - (100000 * 0.45 + 100000 * 0.10) ≠ 55000
    norm_num
  · show (100000 : ℚ) - (100000 * 0.45 + 100000 * 0.10) = 45000
    norm_num

/-- C3 (amended): an object with estimate_works 100000, no expenses, and
actual_s3_discount equal to estimate_s3 yields work_profit 45000 (the 45
percent retained after the 55 percent payroll fund), s3_difference 0, and
total_profit = estimate_supplies + estimate_overhead + estimate_transport +
45000. -/
theorem c3_no_expense_scenario (obj : ConstructionObject)
    (hw : obj.estimate_works = 100000) (he : obj.expenses = [])
    (hs : obj.actual_s3_discount = obj.estimate_s3) :
    (calculate_profit_data obj).work_profit = 45000 ∧
    (calculate_profit_data obj).s3_difference = 0 ∧
    (calculate_profit_data obj).total_profit =
      obj.estimate_supplies + obj.estimate_overhead +
        obj.estimate_transport + 45000 := by
  have hwp : (calculate_profit_data obj).work_profit = 45000 := by
    show obj.estimate_works -
        (obj.estimate_works * 0.45 + obj.estimate_works * 0.10) = 45000
    rw [hw]; norm_num
  have hs3 : (calculate_profit_data obj).s3_difference = 0 := by
    show obj.estimate_s3 - obj.actual_s3_discount = 0
    rw [hs]; ring
  refine ⟨hwp, hs3, ?_⟩
  have htp := (c1_total_profit_formula obj).1
  rw [htp, hwp, hs3]
  have hsf : (calculate_profit_data obj).supplies_fact = 0 := by
    show ((obj.expenses.filter (fun e => e.type = ExpenseType.supplies)).map
      (fun e => e.amount)).sum = 0
    rw [he]; rfl
  have hof : (calculate_profit_data obj).overhead_fact = 0 := by
    show ((obj.expenses.filter (fun e => e.type = ExpenseType.overhead)).map
      (fun e => e.amount)).sum = 0
    rw [he]; rfl
  have htf : (calculate_profit_data obj).transport_fact = 0 := by
    show ((obj.expenses.filter (fun e => e.type = ExpenseType.transport)).map
      (fun e => e.amount)).sum = 0
    rw [he]; rfl
  have h1 : (calculate_profit_data obj).supplies_difference =
      obj.estimate_supplies - (calculate_profit_data obj).supplies_fact := rfl
  have h2 : (calculate_profit_data obj).overhead_difference =
      obj.estimate_overhead - (calculate_profit_data obj).overhead_fact := rfl
  have h3 : (calculate_profit_data obj).transport_difference =
      obj.estimate_transport - (calculate_profit_data obj).transport_fact := rfl
  rw [h1, h2, h3, hsf, hof, htf]
  ring

/-- C3 witness: the amended scenario evaluated at a concrete object with
estimates 100000 / 7000 / 2000 / 1000 and matching S3 figures. -/
theorem c3_no_expense_scenario_witness :
    (calculate_profit_data
      { prepayment := 0, final_payment := 0, estimate_s3 := 300
        estimate_works := 100000, estimate_supplies := 7000
        estimate_overhead := 2000, estimate_transport := 1000
        actual_s3_discount := 300, expenses := [] }).work_profit = 45000 ∧
    (calculate_profit_data
      { prepayment := 0, final_payment := 0, estimate_s3 := 300
        estimate_works := 100000, estimate_supplies := 7000
        estimate_overhead := 2000, estimate_transport := 1000
        actual_s3_discount := 300, expenses := [] }).s3_difference = 0 ∧
    (calculate_profit_data
      { prepayment := 0, final_payment := 0, estimate_s3 := 300
        estimate_works := 100000, estimate_supplies := 7000
        estimate_overhead := 2000, estimate_transport := 1000
        actual_s3_discount := 300, expenses := [] }).total_profit =
      7000 + 2000 + 1000 + 45000 :=
  c3_no_expense_scenario
    { prepayment := 0, final_payment := 0, estimate_s3 := 300
      estimate_works := 100000, estimate_supplies := 7000
      estimate_overhead := 2000, estimate_transport := 1000
      actual_s3_discount := 300, expenses := [] } rfl rfl rfl

/-- Outcome of the objects.py compensate_expense callback handler: the
insufficient-rights alert, the update-error alert, or the success alert. -/
inductive CompensateOutcome
  | insufficientRights
  | updateError
  | success
deriving DecidableEq, Repr

/-- crud.py update_compensation_status: an unconditional
UPDATE expenses SET compensation_status = status WHERE id = expense_id
RETURNING, followed by commit.  The database is the list of expense rows;
id is the primary key, so scalar_one_or_none returns the updated row when
it exists and None otherwise. -/
def update_compensation_status (db : List Expense) (expense_id : Int)
    (status : CompensationStatus) : List Expense × Option Expense :=
  let db' := db.map (fun e =>
    if e.id = expense_id then { e with compensation_status := some status }
    else e)
  (db', db'.find? (fun e => e.id = expense_id))

/-- objects.py compensate_expense handler: after the admin-role check it
calls update_compensation_status with COMPENSATED and reports an update
error only when no row was returned; otherwise it reports success.  No
check of payment_source or of the current compensation_status is made. -/
def compensate_expense (role : UserRole) (db : List Expense)
    (expense_id : Int) : List Expense × CompensateOutcome :=
  if role ≠ UserRole.admin then (db, CompensateOutcome.insufficientRights)
  else
    match update_compensation_status db expense_id
        CompensationStatus.compensated with
    | (db', none) => (db', CompensateOutcome.updateError)
    | (db', some _) => (db', CompensateOutcome.success)

/-- objects.py _build_expense_detail_view: the compensate button is offered
exactly when the expense is PERSONAL with PENDING compensation status. -/
def can_compensate (e : Expense) : Bool :=
  decide (e.payment_source = PaymentSource.personal) &&
    decide (e.compensation_status = some CompensationStatus.pending)

/-- C2 counterexample: on a COMPANY expense with null compensation_status
the handler succeeds and leaves compensation_status = COMPENSATED (non-null
on a COMPANY expense), and a second application to an already COMPENSATED
expense also reports success instead of a failure. -/
theorem c2_counterexample :
    compensate_expense UserRole.admin
      [{ id := 1, type := ExpenseType.supplies, amount := 100
         payment_source := PaymentSource.company
         compensation_status := none }] 1 =
      ([{ id := 1, type := ExpenseType.supplies, amount := 100
          payment_source := PaymentSource.company
          compensation_status := some CompensationStatus.compensated }],
        CompensateOutcome.success) ∧
    (compensate_expense UserRole.admin
      [{ id := 2, type := ExpenseType.transport, amount := 50
         payment_source := PaymentSource.personal
         compensation_status := some CompensationStatus.compensated }] 2).2 =
      CompensateOutcome.success :=
  ⟨rfl, rfl⟩

/-- C2 (amended): for an admin caller the transition succeeds exactly when
an expense with the given id exists, regardless of payment_source and of
the current compensation_status; it unconditionally rewrites every matching
row to COMPENSATED (so it can leave compensation_status non-null on a
COMPANY expense and silently re-apply on a COMPENSATED one); the
update-error outcome occurs exactly when the id matches no row; the
PERSONAL-and-PENDING precondition is enforced only by the UI layer, which
offers the compensate button exactly for PERSONAL expenses with PENDING
status. -/
theorem c2_compensation_transition (db : List Expense) (eid : Int) :
    ((compensate_expense UserRole.admin db eid).2 =
        CompensateOutcome.success ↔ ∃ e ∈ db, e.id = eid) ∧
    (compensate_expense UserRole.admin db eid).1 =
      db.map (fun e =>
        if e.id = eid then
          { e with compensation_status := some CompensationStatus.compensated }
        else e) ∧
    ((compensate_expense UserRole.admin db eid).2 =
        CompensateOutcome.updateError ↔ ¬ ∃ e ∈ db, e.id = eid) ∧
    (∀ e : Expense, can_compensate e = true ↔
      e.payment_source = PaymentSource.personal ∧
        e.compensation_status = some CompensationStatus.pending) := by
  have hfind :
      ((db.map (fun e =>
        if e.id = eid then
          { e with compensation_status := some CompensationStatus.compensated }
        else e)).find? (fun e => decide (e.id = eid))).isSome ↔
        ∃ e ∈ db, e.id = eid := by
    rw [List.find?_isSome]
    constructor
    · rintro ⟨x, hx, hpx⟩
      rcases List.mem_map.mp hx with ⟨e, he, hfe⟩
      refine ⟨e, he, ?_⟩
      by_cases h : e.id = eid
      · exact h
      · rw [← hfe] at hpx
        simp only [if_neg h] at hpx
        exact absurd (of_decide_eq_true hpx) h
    · rintro ⟨e, he, hid⟩
      refine ⟨{ e with
          compensation_status := some CompensationStatus.compensated },
        ?_, by simpa using hid⟩
      exact List.mem_map.mpr ⟨e, he, by rw [if_pos hid]⟩
  refine ⟨?_, ?_, ?_, ?_⟩
  · rw [← hfind]
    unfold compensate_expense update_compensation_status
    simp only [ne_eq, not_true_eq_false, if_false]
    cases h : (db.map (fun e =>
        if e.id = eid then
          { e with compensation_status := some CompensationStatus.compensated }
        else e)).find? (fun e => decide (e.id = eid)) <;>
      simp [h]
  · unfold compensate_expense update_compensation_status
    simp only [ne_eq, not_true_eq_false, if_false]
    cases h : (db.map (fun e =>
        if e.id = eid then
          { e with compensation_status := some CompensationStatus.compensated }
        else e)).find? (fun e => decide (e.id = eid)) <;>
      simp [h]
  · rw [← hfind]
    unfold compensate_expense update_compensation_status
    simp only [ne_eq, not_true_eq_false, if_false]
    cases h : (db.map (fun e =>
        if e.id = eid then
          { e with compensation_status := some CompensationStatus.compensated }
        else e)).find? (fun e => decide (e.id = eid)) <;>
      simp [h]
  · intro e
    unfold can_compensate
    rw [Bool.and_eq_true, decide_eq_true_iff, decide_eq_true_iff]

/-- C2 witness for the amended statement: a PERSONAL pending expense with id
3 exists, so the transition succeeds, and it is exactly the expense the UI
offers the compensate button for. -/
theorem c2_compensation_transition_witness :
    ((compensate_expense UserRole.admin
      [{ id := 3, type := ExpenseType.overhead, amount := 700
         payment_source := PaymentSource.personal
         compensation_status := some CompensationStatus.pending }] 3).2 =
      CompensateOutcome.success) ∧
    can_compensate
      { id := 3, type := ExpenseType.overhead, amount := 700
        payment_source := PaymentSource.personal
        compensation_status := some CompensationStatus.pending } = true :=
  ⟨(c2_compensation_transition
      [{ id := 3, type := ExpenseType.overhead, amount := 700
         payment_source := PaymentSource.personal
         compensation_status := some CompensationStatus.pending }] 3).1.mpr
    ⟨{ id := 3, type := ExpenseType.overhead, amount := 700
       payment_source := PaymentSource.personal
       compensation_status := some CompensationStatus.pending },
      List.mem_singleton.mpr rfl, rfl⟩,
   ((c2_compensation_transition [] 3).2.2.2
      { id := 3, type := ExpenseType.overhead, amount := 700
        payment_source := PaymentSource.personal
        compensation_status := some CompensationStatus.pending }).mpr
    ⟨rfl, rfl⟩⟩

/-- Calendar timestamp at day precision (hours and finer are never needed
by the embedded queries), ordered lexicographically like datetime. -/
structure DateTime where
  year : Int
  month : Int
  day : Int
deriving DecidableEq, Repr

/-- Lexicographic order on DateTime, the order the one-off expense query
compares dates with. -/
def dateLe (a b : DateTime) : Bool :=
  decide (a.year < b.year) ||
    (decide (a.year = b.year) &&
      (decide (a.month < b.month) ||
        (decide (a.month = b.month) && decide (a.day ≤ b.day))))

/-- models.py CompanyExpense: the columns read by the period query
(category, description, added_by, created_at are never read). -/
structure CompanyExpense where
  amount : ℚ
  date : DateTime
deriving DecidableEq, Repr

/-- models.py CompanyRecurringExpense: the columns read by the period query
(category, description, added_by, created_at are never read). -/
structure CompanyRecurringExpense where
  amount : ℚ
  day_of_month : Int
  start_month : Int
  start_year : Int
  end_month : Option Int
  end_year : Option Int
  is_active : Bool
deriving DecidableEq, Repr

/-- Python truthiness of an optional integer column: None and 0 are falsy. -/
def intTruthy : Option Int → Bool
  | none => false
  | some n => decide (n ≠ 0)

/-- The template_end value of crud.py get_company_expenses_for_period:
end_year * 12 + end_month when both columns are truthy, else None. -/
def templateEnd (t : CompanyRecurringExpense) : Option Int :=
  if intTruthy t.end_year && intTruthy t.end_month then
    some (t.end_year.getD 0 * 12 + t.end_month.getD 0)
  else none

/-- Months counted by the loop body for one template: the size of the
inclusive overlap of [tStart, tEnd or +infinity] with [pStart, pEnd]
(0 when empty, matching the continue branch). -/
def monthsCount (tStart : Int) (tEnd : Option Int) (pStart pEnd : Int) : Int :=
  let first := max tStart pStart
  let last :=
    match tEnd with
    | some e => min e pEnd
    | none => pEnd
  if first > last then 0 else last - first + 1

/-- Contribution of one template to recurring_total:
amount * months_count. -/
def templateContribution (t : CompanyRecurringExpense)
    (pStart pEnd : Int) : ℚ :=
  t.amount *
    ((monthsCount (t.start_year * 12 + t.start_month) (templateEnd t)
      pStart pEnd : Int) : ℚ)

/-- The accumulation loop over the active templates in crud.py
get_company_expenses_for_period. -/
def recurringFold (templates : List CompanyRecurringExpense)
    (pStart pEnd : Int) : ℚ :=
  templates.foldl (fun acc t =>
    let tStart := t.start_year * 12 + t.start_month
    let tEnd := templateEnd t
    let first := max tStart pStart
    let last :=
      match tEnd with
      | some e => min e pEnd
      | none => pEnd
    if first > last then acc
    else acc + t.amount * ((last - first + 1 : Int) : ℚ)) 0

/-- The dict returned by crud.py get_company_expenses_for_period. -/
structure CompanyTotals where
  one_time : ℚ
  recurring : ℚ
  total : ℚ
deriving DecidableEq, Repr

/-- crud.py get_company_expenses_for_period (current-schema path): one-off
company expenses are summed over the inclusive date range; each active
recurring template adds amount times the number of months of overlap
between its month range and the query month range, months compared as
year * 12 + month integers. -/
def get_company_expenses_for_period (company_expenses : List CompanyExpense)
    (all_templates : List CompanyRecurringExpense)
    (start_date end_date : DateTime) : CompanyTotals :=
  let one_time_total :=
    ((company_expenses.filter (fun e =>
      dateLe start_date e.date && dateLe e.date end_date)).map
        (fun e => e.amount)).sum
  let templates := all_templates.filter (fun t => t.is_active)
  let period_start := start_date.year * 12 + start_date.month
  let period_end := end_date.year * 12 + end_date.month
  let recurring_total := recurringFold templates period_start period_end
  { one_time := one_time_total
    recurring := recurring_total
    total := one_time_total + recurring_total }

theorem list_sum_map_add {α : Type} (l : List α) (f g : α → ℚ) :
    (l.map f).sum + (l.map g).sum = (l.map (fun x => f x + g x)).sum := by
  induction l with
  | nil => simp
  | cons x xs ih =>
    simp only [List.map_cons, List.sum_cons]
    rw [← ih]
    ring

theorem contribution_step (acc : ℚ) (t : CompanyRecurringExpense)
    (pS pE : Int) :
    (if max (t.start_year * 12 + t.start_month) pS >
        (match templateEnd t with
         | some e => min e pE
         | none => pE) then acc
     else acc + t.amount *
       (((match templateEnd t with
          | some e => min e pE
          | none => pE) - max (t.start_year * 12 + t.start_month) pS + 1 :
         Int) : ℚ)) =
    acc + templateContribution t pS pE := by
  simp only [templateContribution, monthsCount]
  cases h : templateEnd t with
  | none =>
    split_ifs
    · simp
    · push_cast; ring
  | some e =>
    split_ifs
    · simp
    · push_cast; ring

theorem recurringFoldAux (pS pE : Int) :
    ∀ (l : List CompanyRecurringExpense) (acc : ℚ),
      l.foldl (fun acc t =>
        let tStart := t.start_year * 12 + t.start_month
        let tEnd := templateEnd t
        let first := max tStart pS
        let last :=
          match tEnd with
          | some e => min e pE
          | none => pE
        if first > last then acc
        else acc + t.amount * ((last - first + 1 : Int) : ℚ)) acc =
      acc + (l.map (fun t => templateContribution t pS pE)).sum := by
  intro l
  induction l with
  | nil => intro acc; simp
  | cons t ts ih =>
    intro acc
    rw [List.foldl_cons, ih, List.map_cons, List.sum_cons]
    rw [contribution_step]
    ring

theorem recurringFold_eq_sum (ts : List CompanyRecurringExpense)
    (pS pE : Int) :
    recurringFold ts pS pE =
      (ts.map (fun t => templateContribution t pS pE)).sum := by
  unfold recurringFold
  rw [recurringFoldAux]
  simp

theorem monthsCount_split (tS : Int) (tE : Option Int) (a m b : Int)
    (h1 : a ≤ m + 1) (h2 : m ≤ b) :
    monthsCount tS tE a m + monthsCount tS tE (m + 1) b =
      monthsCount tS tE a b := by
  cases tE with
  | none =>
    simp only [monthsCount]
    split_ifs <;> omega
  | some e =>
    simp only [monthsCount]
    split_ifs <;> omega

theorem templateContribution_split (t : CompanyRecurringExpense)
    (a m b : Int) (h1 : a ≤ m + 1) (h2 : m ≤ b) :
    templateContribution t a m + templateContribution t (m + 1) b =
      templateContribution t a b := by
  unfold templateContribution
  rw [← monthsCount_split (t.start_year * 12 + t.start_month)
    (templateEnd t) a m b h1 h2]
  push_cast
  ring

theorem recurringFold_split (ts : List CompanyRecurringExpense)
    (a m b : Int) (h1 : a ≤ m + 1) (h2 : m ≤ b) :
    recurringFold ts a m + recurringFold ts (m + 1) b =
      recurringFold ts a b := by
  rw [recurringFold_eq_sum, recurringFold_eq_sum, recurringFold_eq_sum,
    list_sum_map_add]
  congr 1
  exact List.map_congr_left
    (fun t _ => templateContribution_split t a m b h1 h2)

theorem monthsCount_zero_of_end_before (tS te pS pE : Int) (h : te < pS) :
    monthsCount tS (some te) pS pE = 0 := by
  simp only [monthsCount]
  split_ifs <;> omega

theorem monthsCount_zero_of_start_after (tS : Int) (tE : Option Int)
    (pS pE : Int) (h : tS > pE) : monthsCount tS tE pS pE = 0 := by
  cases tE with
  | none =>
    simp only [monthsCount]
    split_ifs <;> omega
  | some e =>
    simp only [monthsCount]
    split_ifs <;> omega

/-- C4: the company overhead aggregator returns one_time equal to the sum of
one-off expense amounts with date inside the inclusive range, recurring
equal to the sum over active templates of amount times the months of
inclusive overlap of the template month range (open-ended when no truthy
end) with the query month range, months compared as year * 12 + month
integers; a template whose end precedes the query range contributes 0, a
template starting after the query range contributes 0, and total =
one_time + recurring. -/
theorem c4_company_overhead_aggregator (ce : List CompanyExpense)
    (ts : List CompanyRecurringExpense) (sd ed : DateTime) :
    (get_company_expenses_for_period ce ts sd ed).one_time =
      ((ce.filter (fun e => dateLe sd e.date && dateLe e.date ed)).map
        (fun e => e.amount)).sum ∧
    (get_company_expenses_for_period ce ts sd ed).recurring =
      ((ts.filter (fun t => t.is_active)).map (fun t =>
        templateContribution t (sd.year * 12 + sd.month)
          (ed.year * 12 + ed.month))).sum ∧
    (get_company_expenses_for_period ce ts sd ed).total =
      (get_company_expenses_for_period ce ts sd ed).one_time +
        (get_company_expenses_for_period ce ts sd ed).recurring ∧
    (∀ (t : CompanyRecurringExpense) (te : Int), templateEnd t = some te →
      te < sd.year * 12 + sd.month →
      templateContribution t (sd.year * 12 + sd.month)
        (ed.year * 12 + ed.month) = 0) ∧
    (∀ t : CompanyRecurringExpense,
      t.start_year * 12 + t.start_month > ed.year * 12 + ed.month →
      templateContribution t (sd.year * 12 + sd.month)
        (ed.year * 12 + ed.month) = 0) := by
  refine ⟨rfl, ?_, rfl, ?_, ?_⟩
  · exact recurringFold_eq_sum (ts.filter (fun t => t.is_active)) _ _
  · intro t te hte hlt
    unfold templateContribution
    rw [hte, monthsCount_zero_of_end_before _ _ _ _ hlt]
    simp
  · intro t hgt
    unfold templateContribution
    rw [monthsCount_zero_of_start_after _ _ _ _ hgt]
    simp

/-- C4 witness: with the query range 01.2025 to 12.2025, a template ended in
06.2024 contributes 0 and a template starting in 01.2026 contributes 0. -/
theorem c4_company_overhead_aggregator_witness :
    templateContribution
      { amount := 1000, day_of_month := 1, start_month := 1
        start_year := 2024, end_month := some 6, end_year := some 2024
        is_active := true } (2025 * 12 + 1) (2025 * 12 + 12) = 0 ∧
    templateContribution
      { amount := 500, day_of_month := 1, start_month := 1
        start_year := 2026, end_month := none, end_year := none
        is_active := true } (2025 * 12 + 1) (2025 * 12 + 12) = 0 :=
  ⟨(c4_company_overhead_aggregator [] []
      { year := 2025, month := 1, day := 1 }
      { year := 2025, month := 12, day := 31 }).2.2.2.1
    { amount := 1000, day_of_month := 1, start_month := 1
      start_year := 2024, end_month := some 6, end_year := some 2024
      is_active := true } (2024 * 12 + 6) rfl (by norm_num),
   (c4_company_overhead_aggregator [] []
      { year := 2025, month := 1, day := 1 }
      { year := 2025, month := 12, day := 31 }).2.2.2.2
    { amount := 500, day_of_month := 1, start_month := 1
      start_year := 2026, end_month := none, end_year := none
      is_active := true } (by norm_num)⟩

/-- C8: for any fixed template set the recurring total over January to June
of a year plus the total over July to December equals the total over
January to December; generally, splitting the query month range into two
adjacent subranges preserves the summed recurring contribution; and the
month overlap count is symmetric in which bounded interval is intersected
with which. -/
theorem c8_recurring_additivity :
    (∀ (ts : List CompanyRecurringExpense) (y : Int),
      (get_company_expenses_for_period [] ts
        { year := y, month := 1, day := 1 }
        { year := y, month := 6, day := 30 }).recurring +
      (get_company_expenses_for_period [] ts
        { year := y, month := 7, day := 1 }
        { year := y, month := 12, day := 31 }).recurring =
      (get_company_expenses_for_period [] ts
        { year := y, month := 1, day := 1 }
        { year := y, month := 12, day := 31 }).recurring) ∧
    (∀ (ts : List CompanyRecurringExpense) (a m b : Int),
      a ≤ m + 1 → m ≤ b →
      recurringFold ts a m + recurringFold ts (m + 1) b =
        recurringFold ts a b) ∧
    (∀ s e sq eq : Int,
      monthsCount s (some e) sq eq = monthsCount sq (some eq) s e) := by
  refine ⟨?_, ?_, ?_⟩
  · intro ts y
    show recurringFold (ts.filter (fun t => t.is_active))
        (y * 12 + 1) (y * 12 + 6) +
      recurringFold (ts.filter (fun t => t.is_active))
        (y * 12 + 7) (y * 12 + 12) =
      recurringFold (ts.filter (fun t => t.is_active))
        (y * 12 + 1) (y * 12 + 12)
    have h7 : y * 12 + 7 = (y * 12 + 6) + 1 := by ring
    rw [h7]
    exact recurringFold_split _ _ _ _ (by omega) (by omega)
  · intro ts a m b h1 h2
    exact recurringFold_split ts a m b h1 h2
  · intro s e sq eq
    simp only [monthsCount]
    split_ifs <;> omega

/-- C8 witness: the split and symmetry parts applied at concrete inputs, a
single template of amount 3000 active from 03.2025 with no end, splitting
the 2025 month range at June. -/
theorem c8_recurring_additivity_witness :
    recurringFold
      [{ amount := 3000, day_of_month := 15, start_month := 3
         start_year := 2025, end_month := none, end_year := none
         is_active := true }] (2025 * 12 + 1) (2025 * 12 + 6) +
    recurringFold
      [{ amount := 3000, day_of_month := 15, start_month := 3
         start_year := 2025, end_month := none, end_year := none
         is_active := true }] (2025 * 12 + 6 + 1) (2025 * 12 + 12) =
    recurringFold
      [{ amount := 3000, day_of_month := 15, start_month := 3
         start_year := 2025, end_month := none, end_year := none
         is_active := true }] (2025 * 12 + 1) (2025 * 12 + 12) ∧
    monthsCount 5 (some 9) 3 7 = monthsCount 3 (some 7) 5 9 :=
  ⟨c8_recurring_additivity.2.1
      [{ amount := 3000, day_of_month := 15, start_month := 3
         start_year := 2025, end_month := none, end_year := none
         is_active := true }]
      (2025 * 12 + 1) (2025 * 12 + 6) (2025 * 12 + 12)
      (by norm_num) (by norm_num),
   c8_recurring_additivity.2.2 5 9 3 7⟩

/-- C10: the aggregator never reads day_of_month: replacing every
day_of_month of every template by an arbitrary other value leaves the one_time,
recurring and total results unchanged. -/
theorem c10_day_of_month_irrelevant (ce : List CompanyExpense)
    (ts : List CompanyRecurringExpense) (sd ed : DateTime)
    (d : CompanyRecurringExpense → Int) :
    (get_company_expenses_for_period ce
      (ts.map (fun t => { t with day_of_month := d t })) sd ed).one_time =
      (get_company_expenses_for_period ce ts sd ed).one_time ∧
    (get_company_expenses_for_period ce
      (ts.map (fun t => { t with day_of_month := d t })) sd ed).recurring =
      (get_company_expenses_for_period ce ts sd ed).recurring ∧
    (get_company_expenses_for_period ce
      (ts.map (fun t => { t with day_of_month := d t })) sd ed).total =
      (get_company_expenses_for_period ce ts sd ed).total := by
  have hfold : ∀ l : List CompanyRecurringExpense,
      recurringFold (l.map (fun t => { t with day_of_month := d t }))
        (sd.year * 12 + sd.month) (ed.year * 12 + ed.month) =
      recurringFold l (sd.year * 12 + sd.month) (ed.year * 12 + ed.month) := by
    intro l
    unfold recurringFold
    rw [List.foldl_map]
    rfl
  have hrec :
      recurringFold
        ((ts.map (fun t => { t with day_of_month := d t })).filter
          (fun t => t.is_active))
        (sd.year * 12 + sd.month) (ed.year * 12 + ed.month) =
      recurringFold (ts.filter (fun t => t.is_active))
        (sd.year * 12 + sd.month) (ed.year * 12 + ed.month) := by
    rw [List.filter_map]
    rw [hfold]
    rfl
  refine ⟨rfl, hrec, ?_⟩
  show _ + recurringFold
      ((ts.map (fun t => { t with day_of_month := d t })).filter
        (fun t => t.is_active)) _ _ = _ + _
  rw [hrec]

/-- Per-type bucket built by objects.py _send_expenses_overview. -/
structure OverviewBucket where
  total : ℚ
  count : Nat
  personal_pending : Nat
  personal_total : ℚ
  company_total : ℚ
deriving DecidableEq, Repr

/-- The bucket created by setdefault before the first expense of a type. -/
def emptyBucket : OverviewBucket :=
  { total := 0, count := 0, personal_pending := 0
    personal_total := 0, company_total := 0 }

/-- The loop body of _send_expenses_overview for one expense: add the
amount and count, then split by payment source, counting PENDING personal
expenses. -/
def bucketAdd (b : OverviewBucket) (e : Expense) : OverviewBucket :=
  let b1 := { b with total := b.total + e.amount, count := b.count + 1 }
  if e.payment_source = PaymentSource.personal then
    let b2 := { b1 with personal_total := b1.personal_total + e.amount }
    if e.compensation_status = some CompensationStatus.pending then
      { b2 with personal_pending := b2.personal_pending + 1 }
    else b2
  else { b1 with company_total := b1.company_total + e.amount }

/-- setdefault plus in-place update of one dict entry. -/
def optBucketAdd (o : Option OverviewBucket) (e : Expense) :
    Option OverviewBucket :=
  some (bucketAdd (o.getD emptyBucket) e)

/-- The grouped dict of _send_expenses_overview: a finite map from expense
type to the bucket, present exactly for the types that occur. -/
def overviewGrouped (expenses : List Expense) :
    ExpenseType → Option OverviewBucket :=
  expenses.foldl
    (fun g e t => if t = e.type then optBucketAdd (g e.type) e else g t)
    (fun _ => none)

/-- overall_total of _send_expenses_overview: sum of all amounts with
Decimal(0) start. -/
def overall_total (expenses : List Expense) : ℚ :=
  (expenses.map (fun e => e.amount)).sum

theorem overviewFold_apply (es : List Expense)
    (g : ExpenseType → Option OverviewBucket) (t : ExpenseType) :
    (es.foldl
      (fun g e t => if t = e.type then optBucketAdd (g e.type) e else g t)
      g) t =
    (es.filter (fun e => e.type = t)).foldl optBucketAdd (g t) := by
  induction es generalizing g with
  | nil => rfl
  | cons e es ih =>
    rw [List.foldl_cons, ih]
    by_cases h : e.type = t
    · rw [List.filter_cons_of_pos (by simpa using h), List.foldl_cons]
      have hstep : (if t = e.type then optBucketAdd (g e.type) e else g t) =
          optBucketAdd (g t) e := by
        rw [if_pos h.symm, h]
      rw [hstep]
    · rw [List.filter_cons_of_neg (by simpa using h)]
      have hstep : (if t = e.type then optBucketAdd (g e.type) e else g t) =
          g t := if_neg (fun hh : t = e.type => h hh.symm)
      rw [hstep]

theorem optFold_some (l : List Expense) :
    ∀ b : OverviewBucket,
      l.foldl optBucketAdd (some b) = some (l.foldl bucketAdd b) := by
  induction l with
  | nil => intro b; rfl
  | cons e es ih =>
    intro b
    rw [List.foldl_cons, List.foldl_cons]
    exact ih (bucketAdd b e)

theorem bucketAdd_total (b : OverviewBucket) (e : Expense) :
    (bucketAdd b e).total = b.total + e.amount := by
  unfold bucketAdd
  split_ifs <;> rfl

theorem bucketAdd_count (b : OverviewBucket) (e : Expense) :
    (bucketAdd b e).count = b.count + 1 := by
  unfold bucketAdd
  split_ifs <;> rfl

theorem bucketAdd_personal_total (b : OverviewBucket) (e : Expense) :
    (bucketAdd b e).personal_total = b.personal_total +
      (if e.payment_source = PaymentSource.personal then e.amount else 0) := by
  unfold bucketAdd
  split_ifs <;> simp

theorem bucketAdd_company_total (b : OverviewBucket) (e : Expense) :
    (bucketAdd b e).company_total = b.company_total +
      (if e.payment_source = PaymentSource.personal then 0 else e.amount) := by
  unfold bucketAdd
  split_ifs <;> simp

theorem bucketAdd_pending (b : OverviewBucket) (e : Expense) :
    (bucketAdd b e).personal_pending = b.personal_pending +
      (if e.payment_source = PaymentSource.personal ∧
          e.compensation_status = some CompensationStatus.pending
        then 1 else 0) := by
  unfold bucketAdd
  split_ifs with h1 h2 h3 <;> simp_all

theorem bucketFold_total (l : List Expense) :
    ∀ b : OverviewBucket, (l.foldl bucketAdd b).total =
      b.total + (l.map (fun e => e.amount)).sum := by
  induction l with
  | nil => intro b; simp
  | cons e es ih =>
    intro b
    rw [List.foldl_cons, ih, bucketAdd_total, List.map_cons, List.sum_cons]
    ring

theorem bucketFold_count (l : List Expense) :
    ∀ b : OverviewBucket, (l.foldl bucketAdd b).count = b.count + l.length := by
  induction l with
  | nil => intro b; simp
  | cons e es ih =>
    intro b
    rw [List.foldl_cons, ih, bucketAdd_count, List.length_cons]
    omega

theorem bucketFold_personal_total (l : List Expense) :
    ∀ b : OverviewBucket, (l.foldl bucketAdd b).personal_total =
      b.personal_total +
        ((l.filter (fun e =>
          e.payment_source = PaymentSource.personal)).map
            (fun e => e.amount)).sum := by
  induction l with
  | nil => intro b; simp
  | cons e es ih =>
    intro b
    rw [List.foldl_cons, ih, bucketAdd_personal_total]
    by_cases hp : e.payment_source = PaymentSource.personal
    · rw [if_pos hp, List.filter_cons_of_pos (by simpa using hp),
        List.map_cons, List.sum_cons]
      ring
    · rw [if_neg hp, List.filter_cons_of_neg (by simpa using hp)]
      ring

theorem bucketFold_company_total (l : List Expense) :
    ∀ b : OverviewBucket, (l.foldl bucketAdd b).company_total =
      b.company_total +
        ((l.filter (fun e =>
          e.payment_source = PaymentSource.company)).map
            (fun e => e.amount)).sum := by
  induction l with
  | nil => intro b; simp
  | cons e es ih =>
    intro b
    rw [List.foldl_cons, ih, bucketAdd_company_total]
    cases hp : e.payment_source
    · rw [if_neg (by simp), List.filter_cons_of_pos (by simp [hp]),
        List.map_cons, List.sum_cons]
      ring
    · rw [if_pos rfl, List.filter_cons_of_neg (by simp [hp])]
      ring

theorem bucketFold_pending (l : List Expense) :
    ∀ b : OverviewBucket, (l.foldl bucketAdd b).personal_pending =
      b.personal_pending +
        (l.filter (fun e =>
          e.payment_source = PaymentSource.personal ∧
            e.compensation_status = some CompensationStatus.pending)).length := by
  induction l with
  | nil => intro b; simp
  | cons e es ih =>
    intro b
    rw [List.foldl_cons, ih, bucketAdd_pending]
    by_cases hp : e.payment_source = PaymentSource.personal ∧
        e.compensation_status = some CompensationStatus.pending
    · rw [if_pos hp, List.filter_cons_of_pos (by simpa using hp),
        List.length_cons]
      omega
    · rw [if_neg hp, List.filter_cons_of_neg (by simpa using hp)]
      omega

theorem sum_personal_add_company (l : List Expense) :
    ((l.filter (fun e =>
      e.payment_source = PaymentSource.personal)).map
        (fun e => e.amount)).sum +
    ((l.filter (fun e =>
      e.payment_source = PaymentSource.company)).map
        (fun e => e.amount)).sum =
    (l.map (fun e => e.amount)).sum := by
  induction l with
  | nil => simp
  | cons e es ih =>
    cases hp : e.payment_source
    · rw [List.filter_cons_of_neg (by simp [hp]),
        List.filter_cons_of_pos (by simp [hp]),
        List.map_cons, List.sum_cons, List.map_cons, List.sum_cons, ← ih]
      ring
    · rw [List.filter_cons_of_pos (by simp [hp]),
        List.filter_cons_of_neg (by simp [hp]),
        List.map_cons, List.sum_cons, List.map_cons, List.sum_cons, ← ih]
      ring

theorem overviewGrouped_apply (es : List Expense) (t : ExpenseType) :
    overviewGrouped es t =
      (es.filter (fun e => e.type = t)).foldl optBucketAdd none := by
  unfold overviewGrouped
  exact overviewFold_apply es (fun _ => none) t

theorem bucketTotal_eq (es : List Expense) (t : ExpenseType) :
    ((overviewGrouped es t).getD emptyBucket).total =
      ((es.filter (fun e => e.type = t)).map (fun e => e.amount)).sum := by
  rw [overviewGrouped_apply]
  cases hl : es.filter (fun e => e.type = t) with
  | nil => rfl
  | cons x xs =>
    rw [List.foldl_cons]
    show ((xs.foldl optBucketAdd
      (some (bucketAdd emptyBucket x))).getD emptyBucket).total = _
    rw [optFold_some]
    show ((x :: xs).foldl bucketAdd emptyBucket).total = _
    rw [bucketFold_total]
    show (0 : ℚ) + _ = _
    ring

theorem sum_over_types (es : List Expense) :
    ((es.filter (fun e => e.type = ExpenseType.supplies)).map
      (fun e => e.amount)).sum +
    ((es.filter (fun e => e.type = ExpenseType.transport)).map
      (fun e => e.amount)).sum +
    ((es.filter (fun e => e.type = ExpenseType.overhead)).map
      (fun e => e.amount)).sum =
    (es.map (fun e => e.amount)).sum := by
  induction es with
  | nil => simp
  | cons e es ih =>
    cases he : e.type
    · rw [List.filter_cons_of_pos (by simp [he]),
        List.filter_cons_of_neg (by simp [he]),
        List.filter_cons_of_neg (by simp [he]),
        List.map_cons, List.sum_cons, List.map_cons, List.sum_cons, ← ih]
      ring
    · rw [List.filter_cons_of_neg (by simp [he]),
        List.filter_cons_of_pos (by simp [he]),
        List.filter_cons_of_neg (by simp [he]),
        List.map_cons, List.sum_cons, List.map_cons, List.sum_cons, ← ih]
      ring
    · rw [List.filter_cons_of_neg (by simp [he]),
        List.filter_cons_of_neg (by simp [he]),
        List.filter_cons_of_pos (by simp [he]),
        List.map_cons, List.sum_cons, List.map_cons, List.sum_cons, ← ih]
      ring

/-- C9: in the expenses-overview grouping, every bucket satisfies
personal_total + company_total = total, its count is the number of expenses
of that type, its pending counter is the number of PERSONAL expenses of
that type with PENDING status, its total is the amount sum of the expenses
of that type, and the bucket totals over the three types sum to the
overall total of the list. -/
theorem c9_overview_partition (es : List Expense) :
    (∀ (t : ExpenseType) (b : OverviewBucket), overviewGrouped es t = some b →
      b.personal_total + b.company_total = b.total ∧
      b.count = (es.filter (fun e => e.type = t)).length ∧
      b.personal_pending =
        ((es.filter (fun e => e.type = t)).filter (fun e =>
          e.payment_source = PaymentSource.personal ∧
            e.compensation_status = some CompensationStatus.pending)).length ∧
      b.total =
        ((es.filter (fun e => e.type = t)).map (fun e => e.amount)).sum) ∧
    ((overviewGrouped es ExpenseType.supplies).getD emptyBucket).total +
      ((overviewGrouped es ExpenseType.transport).getD emptyBucket).total +
      ((overviewGrouped es ExpenseType.overhead).getD emptyBucket).total =
      overall_total es := by
  constructor
  · intro t b hb
    rw [overviewGrouped_apply] at hb
    have hbfold : b = (es.filter (fun e => e.type = t)).foldl bucketAdd
        emptyBucket := by
      cases hl : es.filter (fun e => e.type = t) with
      | nil => rw [hl] at hb; cases hb
      | cons x xs =>
        rw [hl, List.foldl_cons] at hb
        rw [show optBucketAdd none x = some (bucketAdd emptyBucket x) from rfl,
          optFold_some] at hb
        rw [List.foldl_cons]
        exact (Option.some_injective _ hb).symm
    subst hbfold
    refine ⟨?_, ?_, ?_, ?_⟩
    · rw [bucketFold_personal_total, bucketFold_company_total,
        bucketFold_total]
      show (0 : ℚ) + _ + ((0 : ℚ) + _) = (0 : ℚ) + _
      rw [zero_add, zero_add, zero_add, sum_personal_add_company]
    · rw [bucketFold_count]
      show 0 + _ = _
      omega
    · rw [bucketFold_pending]
      show 0 + _ = _
      omega
    · rw [bucketFold_total]
      show (0 : ℚ) + _ = _
      rw [zero_add]
  · rw [bucketTotal_eq, bucketTotal_eq, bucketTotal_eq]
    exact sum_over_types es

/-- C9 witness: the bucket facts instantiated on a concrete two-expense
list, one PERSONAL pending supplies expense and one COMPANY supplies
expense. -/
theorem c9_overview_partition_witness :
    ((overviewGrouped
      [{ id := 1, type := ExpenseType.supplies, amount := 100
         payment_source := PaymentSource.personal
         compensation_status := some CompensationStatus.pending },
       { id := 2, type := ExpenseType.supplies, amount := 40
         payment_source := PaymentSource.company
         compensation_status := none }] ExpenseType.supplies).getD
      emptyBucket).personal_total +
    ((overviewGrouped
      [{ id := 1, type := ExpenseType.supplies, amount := 100
         payment_source := PaymentSource.personal
         compensation_status := some CompensationStatus.pending },
       { id := 2, type := ExpenseType.supplies, amount := 40
         payment_source := PaymentSource.company
         compensation_status := none }] ExpenseType.supplies).getD
      emptyBucket).company_total =
    ((overviewGrouped
      [{ id := 1, type := ExpenseType.supplies, amount := 100
         payment_source := PaymentSource.personal
         compensation_status := some CompensationStatus.pending },
       { id := 2, type := ExpenseType.supplies, amount := 40
         payment_source := PaymentSource.company
         compensation_status := none }] ExpenseType.supplies).getD
      emptyBucket).total :=
  ((c9_overview_partition
    [{ id := 1, type := ExpenseType.supplies, amount := 100
       payment_source := PaymentSource.personal
       compensation_status := some CompensationStatus.pending },
     { id := 2, type := ExpenseType.supplies, amount := 40
       payment_source := PaymentSource.company
       compensation_status := none }]).1 ExpenseType.supplies _ rfl).1

/-- Aggregate figures computed by report_generator.py
generate_period_report (the rendered report text is presentation and is
not modelled; the per-object cards reuse calculate_profit_data
unmodified). -/
structure PeriodReport where
  object_count : Nat
  total_income : ℚ
  company_total : ℚ
  company_one_time : ℚ
  company_recurring : ℚ
  adjusted_profit : ℚ
  avg_profitability : ℚ

/-- report_generator.py generate_period_report: company_expenses or the
zero dict; the no-data early return when there are no objects and the
company total is zero; then the loop summing per-object total_income and
total_profit, the company-overhead subtraction, and the guarded average
profitability. -/
def generate_period_report (objects : List ConstructionObject)
    (company_expenses : Option CompanyTotals) : Option PeriodReport :=
  let company_data := company_expenses.getD
    { one_time := 0, recurring := 0, total := 0 }
  if objects.isEmpty && decide (company_data.total = 0) then none
  else
    let sums := objects.foldl (fun (acc : ℚ × ℚ) obj =>
      let data := calculate_profit_data obj
      (acc.1 + data.total_income, acc.2 + data.total_profit)) (0, 0)
    let adjusted_profit := sums.2 - company_data.total
    let avg_profitability :=
      if sums.1 > 0 then adjusted_profit / sums.1 * 100 else 0
    some
      { object_count := objects.length
        total_income := sums.1
        company_total := company_data.total
        company_one_time := company_data.one_time
        company_recurring := company_data.recurring
        adjusted_profit := adjusted_profit
        avg_profitability := avg_profitability }

theorem report_sums_fst (objs : List ConstructionObject) :
    ∀ acc : ℚ × ℚ,
      (objs.foldl (fun (acc : ℚ × ℚ) obj =>
        let data := calculate_profit_data obj
        (acc.1 + data.total_income, acc.2 + data.total_profit)) acc).1 =
      acc.1 + (objs.map (fun o => (calculate_profit_data o).total_income)).sum := by
  induction objs with
  | nil => intro acc; simp
  | cons o os ih =>
    intro acc
    rw [List.foldl_cons, ih, List.map_cons, List.sum_cons]
    show acc.1 + (calculate_profit_data o).total_income + _ = _
    ring

theorem report_sums_snd (objs : List ConstructionObject) :
    ∀ acc : ℚ × ℚ,
      (objs.foldl (fun (acc : ℚ × ℚ) obj =>
        let data := calculate_profit_data obj
        (acc.1 + data.total_income, acc.2 + data.total_profit)) acc).2 =
      acc.2 + (objs.map (fun o => (calculate_profit_data o).total_profit)).sum := by
  induction objs with
  | nil => intro acc; simp
  | cons o os ih =>
    intro acc
    rw [List.foldl_cons, ih, List.map_cons, List.sum_cons]
    show acc.2 + (calculate_profit_data o).total_profit + _ = _
    ring

/-- Concrete object whose calculator result has total_profit 10000:
estimate_s3 10000 against actual 0, everything else 0. -/
def objProfitTenK : ConstructionObject :=
  { prepayment := 0, final_payment := 0, estimate_s3 := 10000
    estimate_works := 0, estimate_supplies := 0, estimate_overhead := 0
    estimate_transport := 0, actual_s3_discount := 0, expenses := [] }

/-- Concrete object whose calculator result has total_profit -2000:
actual_s3_discount 2000 against estimate 0, everything else 0. -/
def objLossTwoK : ConstructionObject :=
  { prepayment := 0, final_payment := 0, estimate_s3 := 0
    estimate_works := 0, estimate_supplies := 0, estimate_overhead := 0
    estimate_transport := 0, actual_s3_discount := 2000, expenses := [] }

/-- C5: whenever the period report is produced, its total_income is the sum
of the per-object total_income values, its adjusted_profit is the sum of
the per-object total_profit values minus the company overhead total, and
its average
profitability is adjusted_profit / total_income * 100 guarded to 0 at zero
income; in particular two objects with total_profit 10000 and -2000 and
company overhead total 3000 yield adjusted_profit 5000. -/
theorem c5_period_report (objs : List ConstructionObject)
    (cd : CompanyTotals) (r : PeriodReport)
    (h : generate_period_report objs (some cd) = some r) :
    (r.total_income =
      (objs.map (fun o => (calculate_profit_data o).total_income)).sum ∧
    r.adjusted_profit =
      (objs.map (fun o => (calculate_profit_data o).total_profit)).sum -
        cd.total ∧
    (r.total_income = 0 → r.avg_profitability = 0) ∧
    (r.total_income > 0 → r.avg_profitability =
      r.adjusted_profit / r.total_income * 100)) ∧
    (generate_period_report [objProfitTenK, objLossTwoK]
      (some { one_time := 1000, recurring := 2000, total := 3000 })).map
        (fun q => q.adjusted_profit) = some 5000 := by
  constructor
  · simp only [generate_period_report, Option.getD_some] at h
    split at h
    · exact Option.noConfusion h
    · have hr := (Option.some_injective _ h).symm
      subst hr
      refine ⟨?_, ?_, ?_, ?_⟩
      · show (objs.foldl _ ((0 : ℚ), (0 : ℚ))).1 = _
        rw [report_sums_fst]
        exact zero_add _
      · show (objs.foldl _ ((0 : ℚ), (0 : ℚ))).2 - cd.total = _
        rw [report_sums_snd]
        rw [zero_add]
      · intro hzero
        have hz : (objs.foldl (fun (acc : ℚ × ℚ) obj =>
            let data := calculate_profit_data obj
            (acc.1 + data.total_income, acc.2 + data.total_profit))
              ((0 : ℚ), (0 : ℚ))).1 = 0 := hzero
        show (if (objs.foldl _ ((0 : ℚ), (0 : ℚ))).1 > 0 then _ else (0 : ℚ))
          = 0
        rw [if_neg]
        rw [hz]
        exact lt_irrefl 0
      · intro hpos
        show (if (objs.foldl _ ((0 : ℚ), (0 : ℚ))).1 > 0 then _ else (0 : ℚ))
          = _
        rw [if_pos hpos]
  · unfold generate_period_report
    norm_num [objProfitTenK, objLossTwoK, calculate_profit_data]

/-- C5 witness: the aggregate facts instantiated on the two concrete
objects with profits 10000 and -2000 and a company overhead record with
total 3000; the hypothesis that the report is produced is discharged by
evaluation. -/
theorem c5_period_report_witness :
    (generate_period_report [objProfitTenK, objLossTwoK]
      (some { one_time := 1000, recurring := 2000, total := 3000 })).map
        (fun q => q.adjusted_profit) = some 5000 :=
  (c5_period_report [] { one_time := 1000, recurring := 2000, total := 3000 }
    { object_count := 0, total_income := 0, company_total := 3000
      company_one_time := 1000, company_recurring := 2000
      adjusted_profit := -3000, avg_profitability := 0 }
    (by norm_num [generate_period_report])).2

end ConstructionBot
